import Mathlib

/-!
A shallow embedding of the my-ebita repository core: the API-Ninjas transcript
source adapter, the two AI provider clients (ChatGPT and Gemini), the data
access layer, and the orchestration/normalization layer that the design
documentation describes. Remote I/O is abstracted as an outcome value chosen
by the environment; every control-flow decision the Python code makes on that
outcome is reproduced here.
-/

namespace MyEbita

/-- JSON values as the Python `json` module materialises them (dict insertion
order is kept; numbers are modelled at integer precision, no claim computes
on fractional values). -/
inductive Json where
  | null
  | bool (b : Bool)
  | num (n : Int)
  | str (s : String)
  | arr (elems : List Json)
  | obj (fields : List (String × Json))
deriving Repr, Inhabited

/-- Python truthiness of a JSON-shaped value: `None`, `False`, `0`, `""`,
`[]` and `` empty dict `` are falsy. -/
def Json.falsy : Json → Bool
  | .null => true
  | .bool b => !b
  | .num n => n == 0
  | .str s => s.isEmpty
  | .arr es => es.isEmpty
  | .obj fs => fs.isEmpty

/-- First binding of a key in a dict; a missing key reads as `None`
(this models Python `dict.get` with its default of `None`). -/
def Json.lookupField : List (String × Json) → String → Json
  | [], _ => .null
  | (k, v) :: rest, key => if k = key then v else Json.lookupField rest key

/-- The Python exceptions the embedded code can raise, by class. -/
inductive PyExc where
  | valueError (msg : String)
  | requestException (msg : String)
  | jsonDecodeError (msg : String)
  | attributeError (msg : String)
  | typeError (msg : String)
  | keyError (key : String)
  | indexError (msg : String)
  | openAIError (msg : String)
  | exception (msg : String)
deriving Repr, DecidableEq

/-- `str(e)` as used when an exception is interpolated into an error dict. -/
def PyExc.toMessage : PyExc → String
  | .valueError m => m
  | .requestException m => m
  | .jsonDecodeError m => m
  | .attributeError m => m
  | .typeError m => m
  | .keyError k => k
  | .indexError m => m
  | .openAIError m => m
  | .exception m => m

/-- Python `d.get(k)`: succeeds on a dict (missing key reads as `None`),
raises `AttributeError` on any other value. -/
def Json.pyGet : Json → String → Except PyExc Json
  | .obj fs, key => .ok (Json.lookupField fs key)
  | _, _ => .error (.attributeError "object has no attribute get")

/-- Python `d[k]` with a string key: `KeyError` when missing, `TypeError`
when the value is not a dict. -/
def Json.pyIndexStr : Json → String → Except PyExc Json
  | .obj fs, key =>
      if (fs.map Prod.fst).contains key then .ok (Json.lookupField fs key)
      else .error (.keyError key)
  | .arr _, _ => .error (.typeError "list indices must be integers or slices")
  | _, _ => .error (.typeError "value is not subscriptable by a string key")

/-- Python `xs[i]` with a natural index: `IndexError` out of range,
`KeyError` on a dict, `TypeError` on scalars. -/
def Json.pyIndexNat : Json → Nat → Except PyExc Json
  | .arr es, i =>
      match es.get? i with
      | some x => .ok x
      | none => .error (.indexError "list index out of range")
  | .obj _, i => .error (.keyError (toString i))
  | .str s, i =>
      match s.data.get? i with
      | some c => .ok (.str (String.mk [c]))
      | none => .error (.indexError "string index out of range")
  | _, _ => .error (.typeError "value is not subscriptable by an index")

/-- What the environment did with one `requests` call made by
`NinjasService._make_request`: a 2xx body, a 2xx body that is not JSON, a
non-2xx status (which `raise_for_status` turns into `HTTPError`), a
connection failure, a timeout, or any other exception. -/
inductive HttpOutcome where
  | ok (body : Json)
  | okBadJson (text : String)
  | httpError (status : Nat) (text : String)
  | connectionError (msg : String)
  | timeout (msg : String)
  | otherException (msg : String)
deriving Repr

namespace NinjasService

/-- `NinjasService._make_request`: dispatch on the transport outcome, unwrap
a list body to its first element (an empty list becomes `None`), pass a dict
body through, and re-raise classified exceptions exactly as the `except`
clauses do. The `ValueError` raised inside the `try` block for a body that
is neither list nor dict is itself caught by the trailing
`except Exception` and re-raised as a plain `Exception` with the
unknown-error prefix. -/
def make_request (outcome : HttpOutcome) : Except PyExc (Option Json) :=
  match outcome with
  | .ok body =>
      match body with
      | .arr [] => .ok none
      | .arr (x :: _) => .ok (some x)
      | .obj fs => .ok (some (.obj fs))
      | other =>
          .error (.exception
            ("An unknown error occurred during API call to API Ninjas: "
              ++ "Unexpected top-level response format from API Ninjas: "
              ++ toString (repr other)))
  | .okBadJson text =>
      .error (.valueError ("Failed to decode JSON from API Ninjas response. Response: " ++ text))
  | .httpError status text =>
      .error (.valueError
        ("API Ninjas returned an HTTP error " ++ toString status ++ ": " ++ text))
  | .connectionError msg =>
      .error (.requestException ("Network connection error to API Ninjas: " ++ msg))
  | .timeout msg =>
      .error (.requestException ("API Ninjas request timed out: " ++ msg))
  | .otherException msg =>
      .error (.exception ("An unknown error occurred during API call to API Ninjas: " ++ msg))

/-- The dict `get_earnings_transcript` returns on success. -/
structure TranscriptRec where
  date : Json
  transcript : Json
  transcript_split : Json
deriving Repr

/-- The tail of `get_earnings_transcript` after `_make_request` returns:
`if not transcript_data: return None` (covering both an absent and a falsy
value), then the three `.get` reads, then `if not transcript_text: return
None`, else the result dict. -/
def extract_transcript_fields (transcript_data : Option Json) :
    Except PyExc (Option TranscriptRec) :=
  match transcript_data with
  | none => .ok none
  | some td =>
      if td.falsy then .ok none
      else do
        let date_str ← td.pyGet "date"
        let transcript_text ← td.pyGet "transcript"
        let transcript_split ← td.pyGet "transcript_split"
        if transcript_text.falsy then return none
        else return (some { date := date_str, transcript := transcript_text,
                            transcript_split := transcript_split })

/-- `NinjasService.get_earnings_transcript`. The second component records
whether a network request was issued. Validation failures raise `ValueError`
before any request; an empty `_make_request` result or a falsy transcript
field yields `None`. -/
def get_earnings_transcript (ticker : String) (year quarter : Int)
    (outcome : HttpOutcome) : Except PyExc (Option TranscriptRec) × Bool :=
  if ¬ (1 ≤ quarter ∧ quarter ≤ 4) then
    (.error (.valueError "Quarter must be between 1 and 4."), false)
  else if ¬ (1990 ≤ year ∧ year ≤ 2100) then
    (.error (.valueError "Year seems a bit off. Please provide a realistic year."), false)
  else
    match make_request outcome with
    | .error e => (.error e, true)
    | .ok transcript_data => (extract_transcript_fields transcript_data, true)

end NinjasService

/-- The shared result envelope both provider clients return from
`analyze_transcript`: the success dict carries the analysis payload and the
model name with `success: True`; the failure dict carries an error message
with `success: False`. -/
inductive AnalyzeResult where
  | success (analysis : Json) (model_used : String)
  | failure (error : String)
deriving Repr

/-- The `success` field of the returned dict. -/
def AnalyzeResult.successFlag : AnalyzeResult → Bool
  | .success _ _ => true
  | .failure _ => false

/-- What the environment did with one `requests.post` call made by
`GeminiService._make_request`. A non-2xx outcome also records whether the
error body is itself JSON, because the `HTTPError` handler re-parses it
while logging and a non-JSON error body makes that re-parse raise. -/
inductive GeminiHttpOutcome where
  | ok (body : Json)
  | okBadJson (text : String)
  | httpError (status : Nat) (text : String) (bodyJson : Option Json)
  | connectionError (msg : String)
  | timeout (msg : String)
  | otherRequestError (msg : String)
  | otherException (msg : String)
deriving Repr

namespace GeminiService

/-- `GeminiService._make_request`: return the decoded 2xx body, and map each
transport failure to the exception its `except` clause raises. On a non-2xx
status whose error body is not JSON, the handler itself raises a JSON decode
error while logging, before it can build its `ValueError`. -/
def make_request (outcome : GeminiHttpOutcome) : Except PyExc Json :=
  match outcome with
  | .ok body => .ok body
  | .okBadJson text =>
      .error (.valueError ("Failed to decode JSON from Gemini API response. Response: " ++ text))
  | .httpError status text bodyJson =>
      match bodyJson with
      | some _ =>
          .error (.valueError
            ("Gemini API returned an HTTP error " ++ toString status ++ ": " ++ text))
      | none => .error (.jsonDecodeError "Expecting value in error response body")
  | .connectionError msg =>
      .error (.requestException ("Network connection error to Gemini API: " ++ msg))
  | .timeout msg =>
      .error (.requestException ("Gemini API request timed out: " ++ msg))
  | .otherRequestError msg =>
      .error (.requestException ("An unexpected request error occurred: " ++ msg))
  | .otherException msg =>
      .error (.exception ("An unknown error occurred during API call: " ++ msg))

/-- The extraction `response_data['candidates'][0]['content']['parts'][0]['text']`
with Python indexing semantics at every step. -/
def extract_text (response_data : Json) : Except PyExc Json := do
  let candidates ← response_data.pyIndexStr "candidates"
  let c0 ← candidates.pyIndexNat 0
  let content ← c0.pyIndexStr "content"
  let parts ← content.pyIndexStr "parts"
  let p0 ← parts.pyIndexNat 0
  p0.pyIndexStr "text"

/-- `GeminiService.generate_content`: request, then extract the generated
text; only `KeyError` and `IndexError` are converted to the
unexpected-response `ValueError`, any other exception propagates. -/
def generate_content (outcome : GeminiHttpOutcome) : Except PyExc Json := do
  let response_data ← make_request outcome
  match extract_text response_data with
  | .ok generated_text => .ok generated_text
  | .error (.keyError k) =>
      .error (.valueError
        ("Unexpected response format from Gemini API. Could not extract text. Error: " ++ k))
  | .error (.indexError m) =>
      .error (.valueError
        ("Unexpected response format from Gemini API. Could not extract text. Error: " ++ m))
  | .error e => .error e

/-- `GeminiService.analyze_transcript`: resolve the model override exactly as
`model_name if model_name else self.default_model` does, issue the request
(there is no local input validation, so a request is always made — the
second component records that), and fold every exception of the body into
the failure dict via the catch-all `except`. The `Except` result type shows
whether anything escapes as an exception. -/
def analyze_transcript (default_model transcript_text user_prompt : String)
    (model_name : Option String) (outcome : GeminiHttpOutcome) :
    Except PyExc (AnalyzeResult × Bool) :=
  let model_to_use :=
    match model_name with
    | some m => if m.isEmpty then default_model else m
    | none => default_model
  match generate_content outcome with
  | .ok generated_text => .ok (.success generated_text model_to_use, true)
  | .error e => .ok (.failure ("Failed to get analysis from Gemini: " ++ e.toMessage), true)

end GeminiService

/-- What the environment did with one `client.chat.completions.create` call
in `ChatGPTService.analyze_transcript`: a completion whose first choice has
string or null content, a completion with no choices, an `OpenAIError`, or
any other exception. -/
inductive ChatCompletionOutcome where
  | ok (content : Option String)
  | emptyChoices
  | openAIError (msg : String)
  | otherException (msg : String)
deriving Repr, DecidableEq

namespace ChatGPTService

/-- Python string slicing `s[:n]`, as `analysis_content[:200]` uses it. -/
def pySlice (s : String) (n : Nat) : String := String.mk (s.data.take n)

/-- The `try` block of `ChatGPTService.analyze_transcript`: obtain the first
choice's content (no choices raises `IndexError`, null content makes
`json.loads` raise `TypeError`), then parse it as JSON. `jsonLoads` is the
environment's `json.loads`: `none` models a `JSONDecodeError`, whose message
already carries the 200-character raw excerpt the handler interpolates. -/
def try_body (model_name : String) (outcome : ChatCompletionOutcome)
    (jsonLoads : String → Option Json) : Except PyExc AnalyzeResult :=
  match outcome with
  | .ok (some analysis_content) =>
      match jsonLoads analysis_content with
      | some parsed_content => .ok (.success parsed_content model_name)
      | none =>
          .error (.jsonDecodeError
            ("Expecting value. Raw: " ++ pySlice analysis_content 200))
  | .ok none => .error (.typeError "the JSON object must be str, bytes or bytearray")
  | .emptyChoices => .error (.indexError "list index out of range")
  | .openAIError msg => .error (.openAIError msg)
  | .otherException msg => .error (.exception msg)

/-- The `except` clauses of `ChatGPTService.analyze_transcript`, in source
order: `JSONDecodeError`, then `OpenAIError`, then the catch-all
`Exception`. Total over `PyExc`, which is what makes the method never
re-raise. -/
def handle_exception (e : PyExc) : AnalyzeResult :=
  match e with
  | .jsonDecodeError msg =>
      .failure ("Failed to parse AI response as JSON (critical): " ++ msg ++ "...")
  | .openAIError msg => .failure ("Failed to get analysis from ChatGPT: " ++ msg)
  | e => .failure ("An unexpected error occurred: " ++ e.toMessage)

/-- `ChatGPTService.analyze_transcript`: an empty transcript is rejected
locally before any remote call (second component `false`); an empty
`user_prompt` is not checked. Otherwise the request is issued and the
`try`/`except` structure runs. -/
def analyze_transcript (model_name transcript_text user_prompt : String)
    (outcome : ChatCompletionOutcome) (jsonLoads : String → Option Json) :
    Except PyExc (AnalyzeResult × Bool) :=
  if transcript_text.isEmpty then
    .ok (.failure "Transcript text cannot be empty for analysis.", false)
  else
    match try_body model_name outcome jsonLoads with
    | .ok result => .ok (result, true)
    | .error e => .ok (handle_exception e, true)

end ChatGPTService

/-- The dual-result record the Analysis Orchestrator assembles: one
`ProviderResult` per provider. -/
structure DualAnalysisResult where
  providerA : AnalyzeResult
  providerB : AnalyzeResult
deriving Repr

/-- Modelled from the spec: the Analysis Orchestrator and its
`runDualAnalysis(transcript, instruction)` operation are absent from the
source tree (the route layer is a stub and no module invokes both provider
clients); following the spec contract, it invokes both provider clients
independently on the same transcript and instruction, each under its own
error boundary, and assembles one record with one result per provider. -/
def runDualAnalysis (transcript instruction : String)
    (outcomeA : ChatCompletionOutcome) (jsonLoads : String → Option Json)
    (outcomeB : GeminiHttpOutcome) : DualAnalysisResult :=
  let providerA :=
    match ChatGPTService.analyze_transcript "gpt-4o-mini" transcript instruction
        outcomeA jsonLoads with
    | .ok (r, _) => r
    | .error e => .failure e.toMessage
  let providerB :=
    match GeminiService.analyze_transcript "gemini-2.5-flash" transcript instruction
        none outcomeB with
    | .ok (r, _) => r
    | .error e => .failure e.toMessage
  { providerA := providerA, providerB := providerB }

/-- The fixed sentiment enum of the shared report schema. -/
inductive Sentiment where
  | positive
  | neutral
  | negative
  | unknown
deriving Repr, DecidableEq

/-- Lowercase a string and strip leading and trailing whitespace, as
Python `s.strip().lower()` canonicalises a sentiment value. -/
def lowerTrim (s : String) : List Char :=
  (((s.data.map Char.toLower).dropWhile Char.isWhitespace).reverse.dropWhile
    Char.isWhitespace).reverse

/-- Modelled from the spec: the Report Normalizer's sentiment normalization
is absent from the source tree (the schema stores sentiment as a plain
string and no module maps provider strings onto an enum); following the
spec, sentiment strings are case-normalized (and trimmed) and mapped onto
the fixed enum, with any value outside the known set mapping to `unknown`
rather than being rejected. -/
def normalizeSentiment (s : String) : Sentiment :=
  let t := lowerTrim s
  if t = "positive".data then .positive
  else if t = "neutral".data then .neutral
  else if t = "negative".data then .negative
  else .unknown

/-- A SQLAlchemy session over one table: rows already durable, and rows
staged by `add` but not yet committed. -/
structure DbSession (Row : Type) where
  committed : List Row
  pending : List Row

/-- `session.add(row)`: stage a row. -/
def DbSession.add {Row : Type} (s : DbSession Row) (r : Row) : DbSession Row :=
  { s with pending := s.pending ++ [r] }

/-- A successful `session.commit()`: staged rows become durable. -/
def DbSession.commitOk {Row : Type} (s : DbSession Row) : DbSession Row :=
  { committed := s.committed ++ s.pending, pending := [] }

/-- `session.rollback()`: staged rows are discarded, durable rows are
untouched. -/
def DbSession.rollback {Row : Type} (s : DbSession Row) : DbSession Row :=
  { s with pending := [] }

/-- How the environment resolves one `session.commit()`: success, a
uniqueness violation (`IntegrityError`), or any other database exception. -/
inductive CommitOutcome where
  | success
  | integrityError (msg : String)
  | otherError (msg : String)
deriving Repr, DecidableEq

/-- A row of the `users` table as `create_user` populates it. -/
structure UserRow where
  username : String
  email : String
  password_hash : String
deriving Repr, DecidableEq

namespace DataManager

/-- `DataManager.create_user`: build the row, hash the password, `add`,
`commit`; on `IntegrityError` or any other exception, `rollback` and return
`None`; return the new row only on a successful commit. -/
def create_user (s : DbSession UserRow) (username email password : String)
    (hashPassword : String → String) (oc : CommitOutcome) :
    Option UserRow × DbSession UserRow :=
  let new_user : UserRow :=
    { username := username, email := email, password_hash := hashPassword password }
  let staged := s.add new_user
  match oc with
  | .success => (some new_user, staged.commitOk)
  | .integrityError _ => (none, staged.rollback)
  | .otherError _ => (none, staged.rollback)

/-- A row of the `analysis_reports` table as `create_analysis_report`
populates it. Score columns are `Float` in the schema; the data layer never
computes on them, so they are carried at integer precision here. -/
structure ReportRow where
  user_id : Int
  transcript_id : Int
  gemini_summary : Option String
  gemini_overall_sentiment : Option String
  gemini_sentiment_scores_by_segment : Option Json
  gemini_management_confidence_score : Option Int
  gemini_evasiveness_score_q_a : Option Int
  gemini_key_topics_discussed : Option Json
  gemini_red_flags_identified : Option Json
  gemini_raw_response_json : Option Json
  chatgpt_summary : Option String
  chatgpt_overall_sentiment : Option String
  chatgpt_sentiment_scores_by_segment : Option Json
  chatgpt_management_confidence_score : Option Int
  chatgpt_evasiveness_score_q_a : Option Int
  chatgpt_key_topics_discussed : Option Json
  chatgpt_red_flags_identified : Option Json
  chatgpt_raw_response_json : Option Json
  comparison_notes : Option String

/-- `DataManager.create_analysis_report`: build the row from the keyword
arguments (all analysis fields default to `None` in the source and are
passed through unchanged), `add`, `commit`; on `IntegrityError` or any
other exception, `rollback` and return `None`; return the new row only on a
successful commit. -/
def create_analysis_report (s : DbSession ReportRow) (fields : ReportRow)
    (oc : CommitOutcome) : Option ReportRow × DbSession ReportRow :=
  let new_report := fields
  let staged := s.add new_report
  match oc with
  | .success => (some new_report, staged.commitOk)
  | .integrityError _ => (none, staged.rollback)
  | .otherError _ => (none, staged.rollback)

end DataManager

/-- A well-formed Gemini 2xx response body whose generated text is the
string literal given. -/
def geminiBody (text : String) : Json :=
  .obj [("candidates", .arr [
    .obj [("content", .obj [("parts", .arr [ .obj [("text", .str text)] ])])] ])]

/-- A report row with every analysis field absent, as
`create_analysis_report` builds one when called with only the two
mandatory keys. -/
def emptyReportRow (user_id transcript_id : Int) : DataManager.ReportRow :=
  { user_id := user_id, transcript_id := transcript_id
    gemini_summary := none, gemini_overall_sentiment := none
    gemini_sentiment_scores_by_segment := none
    gemini_management_confidence_score := none
    gemini_evasiveness_score_q_a := none
    gemini_key_topics_discussed := none
    gemini_red_flags_identified := none
    gemini_raw_response_json := none
    chatgpt_summary := none, chatgpt_overall_sentiment := none
    chatgpt_sentiment_scores_by_segment := none
    chatgpt_management_confidence_score := none
    chatgpt_evasiveness_score_q_a := none
    chatgpt_key_topics_discussed := none
    chatgpt_red_flags_identified := none
    chatgpt_raw_response_json := none
    comparison_notes := none }

/-! Theorems -/

/-- Whenever the post-request extraction produces a transcript record, the
record's transcript field is non-falsy (in particular, a string value there
is non-empty). -/
theorem extract_ok_some_nonfalsy (td : Option Json) (r : NinjasService.TranscriptRec)
    (h : NinjasService.extract_transcript_fields td = .ok (some r)) :
    r.transcript.falsy = false := by
  cases td with
  | none => simp [NinjasService.extract_transcript_fields] at h
  | some j =>
    cases j with
    | null =>
      simp [NinjasService.extract_transcript_fields, Json.falsy] at h
    | bool b =>
      cases b <;>
        simp [NinjasService.extract_transcript_fields, Json.falsy, Json.pyGet,
          bind, Except.bind, pure, Except.pure] at h
    | num n =>
      cases hf : (Json.num n).falsy <;>
        simp [NinjasService.extract_transcript_fields, hf, Json.pyGet,
          bind, Except.bind, pure, Except.pure] at h
    | str s =>
      cases hf : (Json.str s).falsy <;>
        simp [NinjasService.extract_transcript_fields, hf, Json.pyGet,
          bind, Except.bind, pure, Except.pure] at h
    | arr es =>
      cases hf : (Json.arr es).falsy <;>
        simp [NinjasService.extract_transcript_fields, hf, Json.pyGet,
          bind, Except.bind, pure, Except.pure] at h
    | obj fs =>
      cases hf : (Json.obj fs).falsy with
      | true => simp [NinjasService.extract_transcript_fields, hf] at h
      | false =>
        cases ht : (Json.lookupField fs "transcript").falsy with
        | true =>
          simp [NinjasService.extract_transcript_fields, hf, Json.pyGet, ht,
            bind, Except.bind, pure, Except.pure] at h
        | false =>
          simp [NinjasService.extract_transcript_fields, hf, Json.pyGet, ht,
            bind, Except.bind, pure, Except.pure] at h
          subst h
          exact ht

/-- C5: for every valid (ticker, year, quarter) with year in [1990, 2100]
and quarter in [1, 4], `get_earnings_transcript` never returns a record
with an empty transcript text: any returned record has a non-falsy
transcript field, and both an empty-list remote response and a response
whose transcript field is missing or empty yield `None`, not an error. -/
theorem get_earnings_transcript_nonempty_or_none
    (ticker : String) (year quarter : Int) (outcome : HttpOutcome)
    (hq1 : 1 ≤ quarter) (hq4 : quarter ≤ 4) (hy1 : 1990 ≤ year) (hy2 : year ≤ 2100) :
    (∀ r, (NinjasService.get_earnings_transcript ticker year quarter outcome).1
        = .ok (some r) → r.transcript.falsy = false)
    ∧ (NinjasService.get_earnings_transcript ticker year quarter (.ok (.arr []))).1
        = .ok none
    ∧ ∀ fs, (Json.lookupField fs "transcript").falsy = true →
        (NinjasService.get_earnings_transcript ticker year quarter (.ok (.obj fs))).1
          = .ok none := by
  have h1 : ¬¬(1 ≤ quarter ∧ quarter ≤ 4) := not_not_intro ⟨hq1, hq4⟩
  have h2 : ¬¬(1990 ≤ year ∧ year ≤ 2100) := not_not_intro ⟨hy1, hy2⟩
  refine ⟨?_, ?_, ?_⟩
  · intro r h
    simp only [NinjasService.get_earnings_transcript, if_neg h1, if_neg h2] at h
    cases hmr : NinjasService.make_request outcome with
    | error e => rw [hmr] at h; simp at h
    | ok td => rw [hmr] at h; simp at h; exact extract_ok_some_nonfalsy td r h
  · simp only [NinjasService.get_earnings_transcript, if_neg h1, if_neg h2]
    rfl
  · intro fs hfs
    simp only [NinjasService.get_earnings_transcript, if_neg h1, if_neg h2]
    show NinjasService.extract_transcript_fields (some (.obj fs)) = .ok none
    cases hf : (Json.obj fs).falsy <;>
      simp [NinjasService.extract_transcript_fields, hf, Json.pyGet, hfs,
        bind, Except.bind, pure, Except.pure]

/-- Witness for C5 at ticker MSFT, year 2025, quarter 1, with an empty-list
remote response. -/
theorem get_earnings_transcript_nonempty_or_none_witness :
    (NinjasService.get_earnings_transcript "MSFT" 2025 1 (.ok (.arr []))).1 = .ok none :=
  (get_earnings_transcript_nonempty_or_none "MSFT" 2025 1 (.ok (.arr []))
    (by decide) (by decide) (by decide) (by decide)).2.1

/-- C9: when the remote API returns a non-empty JSON list, `_make_request`
returns only the first element and silently discards all remaining
elements, so callers never observe more than one record per request. -/
theorem make_request_returns_first_element_only (x : Json) (rest : List Json) :
    NinjasService.make_request (.ok (.arr (x :: rest))) = .ok (some x) := rfl

/-- C6 counterexample: the fail-fast validation error and a remote HTTP
failure are raised as the same exception class — both are `ValueError` —
so the local `InvalidArgument`-style error is not distinct from the errors
used for remote failures. -/
theorem invalid_argument_not_distinct_from_remote :
    NinjasService.get_earnings_transcript "AAPL" 2024 5 (.ok (.arr []))
      = (.error (.valueError "Quarter must be between 1 and 4."), false)
    ∧ (NinjasService.get_earnings_transcript "AAPL" 2024 1
        (.httpError 500 "server error")).1
      = .error (.valueError
          ("API Ninjas returned an HTTP error " ++ toString 500 ++ ": " ++ "server error")) := by
  exact ⟨rfl, rfl⟩

/-- C6 amended: every quarter outside [1, 4] or year outside [1990, 2100]
makes `get_earnings_transcript` raise a `ValueError` before issuing any
network request; the same exception class is however also used for remote
non-2xx and JSON-decode failures, so the validation error is distinguished
from remote failures only by its message. -/
theorem fail_fast_validation_amended
    (ticker : String) (year quarter : Int) (outcome : HttpOutcome)
    (h : quarter < 1 ∨ 4 < quarter ∨ year < 1990 ∨ 2100 < year) :
    ∃ msg, NinjasService.get_earnings_transcript ticker year quarter outcome
      = (.error (.valueError msg), false) := by
  by_cases hq : 1 ≤ quarter ∧ quarter ≤ 4
  · have hy : ¬ (1990 ≤ year ∧ year ≤ 2100) := by
      rcases h with h | h | h | h <;> omega
    refine ⟨"Year seems a bit off. Please provide a realistic year.", ?_⟩
    simp [NinjasService.get_earnings_transcript, not_not_intro hq, hy]
  · refine ⟨"Quarter must be between 1 and 4.", ?_⟩
    simp [NinjasService.get_earnings_transcript, hq]

/-- Witness for the amended C6 at quarter 5. -/
theorem fail_fast_validation_amended_witness :
    ∃ msg, NinjasService.get_earnings_transcript "AAPL" 2024 5 (.ok (.arr []))
      = (.error (.valueError msg), false) :=
  fail_fast_validation_amended "AAPL" 2024 5 (.ok (.arr [])) (by omega)

/-- C1 counterexample: `GeminiService.analyze_transcript` called with an
empty transcript issues the remote call (second component `true`) and, on a
well-formed response, returns a success — not a `Failure(EmptyInput)`-style
result without a remote call. -/
theorem gemini_empty_input_not_rejected :
    GeminiService.analyze_transcript "gemini-2.5-flash" "" "assess evasiveness" none
        (.ok (geminiBody "All good."))
      = .ok (.success (.str "All good.") "gemini-2.5-flash", true) := rfl

/-- C1 amended: only `ChatGPTService.analyze_transcript` rejects an empty
transcript locally, returning the error dict without issuing a remote call;
an empty instruction is not rejected by either client — ChatGPT with a
non-empty transcript and an empty instruction still issues the remote call,
and `GeminiService.analyze_transcript` always issues the remote call, for
any transcript and any instruction. -/
theorem empty_input_rejection_amended :
    (∀ (model prompt : String) (oc : ChatCompletionOutcome)
        (jsonLoads : String → Option Json),
      ChatGPTService.analyze_transcript model "" prompt oc jsonLoads
        = .ok (.failure "Transcript text cannot be empty for analysis.", false))
    ∧ (∀ (model t : String) (oc : ChatCompletionOutcome)
        (jsonLoads : String → Option Json),
      t.isEmpty = false →
        ∃ r, ChatGPTService.analyze_transcript model t "" oc jsonLoads = .ok (r, true))
    ∧ ∀ (default_model t p : String) (mn : Option String) (oc : GeminiHttpOutcome),
        ∃ r, GeminiService.analyze_transcript default_model t p mn oc = .ok (r, true) := by
  refine ⟨?_, ?_, ?_⟩
  · intro model prompt oc jsonLoads
    rfl
  · intro model t oc jsonLoads ht
    simp only [ChatGPTService.analyze_transcript]
    rw [if_neg (by simp [ht])]
    cases ChatGPTService.try_body model oc jsonLoads with
    | ok r => exact ⟨r, rfl⟩
    | error e => exact ⟨ChatGPTService.handle_exception e, rfl⟩
  · intro default_model t p mn oc
    simp only [GeminiService.analyze_transcript]
    cases GeminiService.generate_content oc <;> exact ⟨_, rfl⟩

/-- Witness for the amended C1: a non-empty transcript with an empty
instruction still reaches the remote call. -/
theorem empty_input_rejection_amended_witness :
    ∃ r, ChatGPTService.analyze_transcript "gpt-4o-mini" "CEO: fine." ""
        (.ok (some "not json")) (fun _ => none) = .ok (r, true) :=
  empty_input_rejection_amended.2.1 "gpt-4o-mini" "CEO: fine."
    (.ok (some "not json")) (fun _ => none) rfl

/-- C2: for every transport outcome and parser behaviour, both provider
clients return a result dict — a success with `success: True` or an error
dict with `success: False` — and never let an exception escape
(`Except.ok` on every input). -/
theorem provider_clients_never_raise :
    (∀ (model t p : String) (oc : ChatCompletionOutcome)
        (jsonLoads : String → Option Json),
      ∃ r issued, ChatGPTService.analyze_transcript model t p oc jsonLoads
          = .ok (r, issued)
        ∧ (r.successFlag = true ∨ ∃ msg, r = .failure msg ∧ r.successFlag = false))
    ∧ ∀ (default_model t p : String) (mn : Option String) (oc : GeminiHttpOutcome),
      ∃ r issued, GeminiService.analyze_transcript default_model t p mn oc
          = .ok (r, issued)
        ∧ (r.successFlag = true ∨ ∃ msg, r = .failure msg ∧ r.successFlag = false) := by
  constructor
  · intro model t p oc jsonLoads
    simp only [ChatGPTService.analyze_transcript]
    by_cases ht : t.isEmpty = true
    · rw [if_pos ht]
      exact ⟨_, _, rfl, Or.inr ⟨_, rfl, rfl⟩⟩
    · rw [if_neg ht]
      cases ChatGPTService.try_body model oc jsonLoads with
      | ok r =>
        refine ⟨r, true, rfl, ?_⟩
        cases r with
        | success a m => exact Or.inl rfl
        | failure msg => exact Or.inr ⟨msg, rfl, rfl⟩
      | error e =>
        refine ⟨ChatGPTService.handle_exception e, true, rfl, ?_⟩
        cases ChatGPTService.handle_exception e with
        | success a m => exact Or.inl rfl
        | failure msg => exact Or.inr ⟨msg, rfl, rfl⟩
  · intro default_model t p mn oc
    simp only [GeminiService.analyze_transcript]
    cases GeminiService.generate_content oc with
    | ok g => exact ⟨_, _, rfl, Or.inl rfl⟩
    | error e => exact ⟨_, _, rfl, Or.inr ⟨_, rfl, rfl⟩⟩

/-- C4 counterexample: a ChatGPT response that is retrievable as text but
fails strict JSON parsing produces a hard failure dict with
`success: False` — not a partial success carrying the raw text with a
warning flag. -/
theorem chatgpt_parse_failure_hard_fails :
    ChatGPTService.analyze_transcript "gpt-4o-mini" "CEO: good quarter." "assess evasiveness"
        (.ok (some "Management sounded evasive to me.")) (fun _ => none)
      = .ok (.failure ("Failed to parse AI response as JSON (critical): "
          ++ ("Expecting value. Raw: " ++ "Management sounded evasive to me.")
          ++ "..."), true) := by
  show Except.ok (ChatGPTService.handle_exception (.jsonDecodeError
      ("Expecting value. Raw: " ++ ChatGPTService.pySlice "Management sounded evasive to me." 200)),
    true) = _
  have hs : ChatGPTService.pySlice "Management sounded evasive to me." 200
      = "Management sounded evasive to me." := by decide
  rw [hs]
  rfl

/-- C4 amended: when strict parsing of the retrieved text fails,
`ChatGPTService.analyze_transcript` returns a hard failure dict whose error
message carries a raw-text excerpt, with `success: False`;
`GeminiService.analyze_transcript` never attempts structured parsing and
returns the extracted raw text as a full success with no warning field. -/
theorem parse_failure_behavior_amended
    (model t p content : String) (jsonLoads : String → Option Json)
    (ht : t.isEmpty = false) (hp : jsonLoads content = none) :
    (ChatGPTService.analyze_transcript model t p (.ok (some content)) jsonLoads
      = .ok (.failure ("Failed to parse AI response as JSON (critical): "
          ++ ("Expecting value. Raw: " ++ ChatGPTService.pySlice content 200) ++ "..."), true))
    ∧ ∀ (default_model : String) (body : Json) (txt : Json),
        GeminiService.extract_text body = .ok txt →
        GeminiService.analyze_transcript default_model t p none (.ok body)
          = .ok (.success txt default_model, true) := by
  constructor
  · simp [ChatGPTService.analyze_transcript, ht, ChatGPTService.try_body, hp,
      ChatGPTService.handle_exception]
  · intro default_model body txt hx
    simp [GeminiService.analyze_transcript, GeminiService.generate_content,
      GeminiService.make_request, bind, Except.bind, hx]

/-- Witness for the amended C4 on a concrete free-text response. -/
theorem parse_failure_behavior_amended_witness :
    ChatGPTService.analyze_transcript "gpt-4o-mini" "CEO: fine." "summarize"
        (.ok (some "free text")) (fun _ => none)
      = .ok (.failure ("Failed to parse AI response as JSON (critical): "
          ++ ("Expecting value. Raw: " ++ ChatGPTService.pySlice "free text" 200)
          ++ "..."), true) :=
  (parse_failure_behavior_amended "gpt-4o-mini" "CEO: fine." "summarize" "free text"
    (fun _ => none) rfl rfl).1

/-- C7 counterexample: statuses 401, 429 and 500 are all mapped to the same
generic `ValueError` carrying the status and body — there is no distinct
`AuthError` or `RateLimited` classification in the returned result. -/
theorem status_classification_not_distinguished :
    GeminiService.make_request (.httpError 401 "unauthorized" (some (.obj [])))
      = .error (.valueError
          ("Gemini API returned an HTTP error " ++ toString 401 ++ ": " ++ "unauthorized"))
    ∧ GeminiService.make_request (.httpError 429 "quota exceeded" (some (.obj [])))
      = .error (.valueError
          ("Gemini API returned an HTTP error " ++ toString 429 ++ ": " ++ "quota exceeded"))
    ∧ GeminiService.make_request (.httpError 500 "server error" (some (.obj [])))
      = .error (.valueError
          ("Gemini API returned an HTTP error " ++ toString 500 ++ ": " ++ "server error")) :=
  ⟨rfl, rfl, rfl⟩

/-- C7 amended: every non-2xx response whose error body is JSON-decodable
is mapped by `GeminiService._make_request` to one generic `ValueError`
carrying the remote status and body, with no dedicated auth or rate-limit
classification; `ChatGPTService.analyze_transcript` likewise folds every
`OpenAIError` into one generic failure dict. -/
theorem non2xx_generic_classification_amended
    (status : Nat) (text : String) (body : Json)
    (model t p msg : String) (jsonLoads : String → Option Json)
    (ht : t.isEmpty = false) :
    GeminiService.make_request (.httpError status text (some body))
      = .error (.valueError
          ("Gemini API returned an HTTP error " ++ toString status ++ ": " ++ text))
    ∧ ChatGPTService.analyze_transcript model t p (.openAIError msg) jsonLoads
      = .ok (.failure ("Failed to get analysis from ChatGPT: " ++ msg), true) := by
  constructor
  · rfl
  · simp [ChatGPTService.analyze_transcript, ht, ChatGPTService.try_body,
      ChatGPTService.handle_exception]

/-- Witness for the amended C7 at status 401. -/
theorem non2xx_generic_classification_amended_witness :
    GeminiService.make_request (.httpError 401 "unauthorized" (some (.obj [])))
      = .error (.valueError
          ("Gemini API returned an HTTP error " ++ toString 401 ++ ": " ++ "unauthorized"))
    ∧ ChatGPTService.analyze_transcript "gpt-4o-mini" "CEO: fine." "summarize"
        (.openAIError "401 Unauthorized") (fun _ => none)
      = .ok (.failure ("Failed to get analysis from ChatGPT: " ++ "401 Unauthorized"), true) :=
  non2xx_generic_classification_amended 401 "unauthorized" (.obj []) "gpt-4o-mini"
    "CEO: fine." "summarize" "401 Unauthorized" (fun _ => none) rfl

/-- C3 (orchestrator modelled from the spec): `runDualAnalysis` always
assembles a record with exactly one result per provider; each provider's
component depends only on its own transport outcome, so a failure on one
side never blocks or alters the other side, and in particular a ChatGPT
transport failure combined with a well-formed Gemini response yields a
failure for provider A next to an intact success for provider B. -/
theorem runDualAnalysis_isolation :
    (∀ (t i : String) (ocA : ChatCompletionOutcome) (jsonLoads : String → Option Json)
        (ocB : GeminiHttpOutcome),
      ∃ ra rb, runDualAnalysis t i ocA jsonLoads ocB = { providerA := ra, providerB := rb })
    ∧ (∀ (t i : String) (ocA ocA' : ChatCompletionOutcome)
        (jsonLoads jsonLoads' : String → Option Json) (ocB : GeminiHttpOutcome),
      (runDualAnalysis t i ocA jsonLoads ocB).providerB
        = (runDualAnalysis t i ocA' jsonLoads' ocB).providerB)
    ∧ (∀ (t i : String) (ocA : ChatCompletionOutcome) (jsonLoads : String → Option Json)
        (ocB ocB' : GeminiHttpOutcome),
      (runDualAnalysis t i ocA jsonLoads ocB).providerA
        = (runDualAnalysis t i ocA jsonLoads ocB').providerA)
    ∧ ∀ (t i : String) (jsonLoads : String → Option Json),
      (runDualAnalysis t i (.otherException "Request timed out.") jsonLoads
          (.ok (geminiBody "Solid quarter."))).providerA.successFlag = false
      ∧ (runDualAnalysis t i (.otherException "Request timed out.") jsonLoads
          (.ok (geminiBody "Solid quarter."))).providerB
        = .success (.str "Solid quarter.") "gemini-2.5-flash" := by
  refine ⟨fun t i ocA jl ocB => ⟨_, _, rfl⟩, fun t i ocA ocA' jl jl' ocB => rfl,
    fun t i ocA jl ocB ocB' => rfl, fun t i jl => ⟨?_, rfl⟩⟩
  by_cases ht : t.isEmpty <;>
    simp [runDualAnalysis, ChatGPTService.analyze_transcript, ht,
      ChatGPTService.try_body, ChatGPTService.handle_exception, AnalyzeResult.successFlag]

/-- C8 (normalizer modelled from the spec): sentiment normalization depends
only on the trimmed, lowercased form of its input, so "positive",
"POSITIVE" and "Positive " all map to `positive`, and a value outside the
known set such as "bullish" maps to `unknown` instead of being rejected. -/
theorem sentiment_normalization :
    (normalizeSentiment "positive" = .positive
      ∧ normalizeSentiment "POSITIVE" = .positive
      ∧ normalizeSentiment "Positive " = .positive
      ∧ normalizeSentiment "bullish" = .unknown)
    ∧ ∀ s t : String, lowerTrim s = lowerTrim t →
        normalizeSentiment s = normalizeSentiment t := by
  refine ⟨⟨by decide, by decide, by decide, by decide⟩, fun s t h => ?_⟩
  simp only [normalizeSentiment, h]

/-- Witness for C8 on a mixed-case input with trailing whitespace. -/
theorem sentiment_normalization_witness :
    normalizeSentiment "pOsItIvE " = normalizeSentiment "positive" :=
  sentiment_normalization.2 "pOsItIvE " "positive" (by decide)

/-- C10: both `create_user` and `create_analysis_report` are atomic: on an
`IntegrityError` or any other commit failure they roll back, return `None`
and leave the committed store unchanged; only a successful commit returns
the newly created row, which is then appended to the committed store. -/
theorem datamanager_writes_atomic
    (s : DbSession UserRow) (username email password : String)
    (hashPassword : String → String) (oc : CommitOutcome)
    (s2 : DbSession DataManager.ReportRow) (fields : DataManager.ReportRow)
    (oc2 : CommitOutcome) :
    ((oc ≠ .success →
        DataManager.create_user s username email password hashPassword oc
          = (none, { committed := s.committed, pending := [] }))
      ∧ (oc = .success →
        DataManager.create_user s username email password hashPassword oc
          = (some { username := username, email := email,
                    password_hash := hashPassword password },
             { committed := s.committed ++ s.pending
                 ++ [{ username := username, email := email,
                       password_hash := hashPassword password }],
               pending := [] })))
    ∧ (oc2 ≠ .success →
        DataManager.create_analysis_report s2 fields oc2
          = (none, { committed := s2.committed, pending := [] }))
    ∧ (oc2 = .success →
        DataManager.create_analysis_report s2 fields oc2
          = (some fields,
             { committed := s2.committed ++ s2.pending ++ [fields], pending := [] })) := by
  refine ⟨⟨?_, ?_⟩, ?_, ?_⟩
  · intro h
    cases oc with
    | success => exact absurd rfl h
    | integrityError m =>
        simp [DataManager.create_user, DbSession.add, DbSession.rollback]
    | otherError m =>
        simp [DataManager.create_user, DbSession.add, DbSession.rollback]
  · intro h
    subst h
    simp [DataManager.create_user, DbSession.add, DbSession.commitOk]
  · intro h
    cases oc2 with
    | success => exact absurd rfl h
    | integrityError m =>
        simp [DataManager.create_analysis_report, DbSession.add, DbSession.rollback]
    | otherError m =>
        simp [DataManager.create_analysis_report, DbSession.add, DbSession.rollback]
  · intro h
    subst h
    simp [DataManager.create_analysis_report, DbSession.add, DbSession.commitOk]

/-- Witness for C10: a duplicate-key failure on a fresh session leaves the
store empty and returns `None`. -/
theorem datamanager_writes_atomic_witness :
    DataManager.create_user { committed := [], pending := [] } "ed" "ed@x.io" "pw"
        id (.integrityError "duplicate key")
      = (none, { committed := [], pending := [] })
    ∧ DataManager.create_analysis_report { committed := [], pending := [] }
        (emptyReportRow 1 7) .success
      = (some (emptyReportRow 1 7),
         { committed := [emptyReportRow 1 7], pending := [] }) := by
  have h := datamanager_writes_atomic { committed := [], pending := [] } "ed" "ed@x.io"
    "pw" id (.integrityError "duplicate key") { committed := [], pending := [] }
    (emptyReportRow 1 7) .success
  exact ⟨h.1.1 (by simp), by simpa using h.2.2 rfl⟩

end MyEbita
